import Mathlib

/-!
Shallow embedding of the Tock `LedMatrixText` driver
(`src/chapter_9/kernel/drivers/src/led_matrix_text.rs`).

The driver's mutable cells become fields of an explicit `DriverState`
record; every operation is a pure function from a state (plus arguments)
to a state together with its synchronous result.  External effects are
reflected as observable fields of the state:
- `leds` is the current frame of the 25 binary LEDs,
- `pendingCalls` counts invocations of `deferred_caller.set` (scheduled
  deferred callbacks),
- `alarmSets` counts invocations of `alarm.set_alarm`, and
  `alarmInterval` records the interval (`speed`) passed at the last arm,
- `handleSet` models whether `initialize_callback_handle` has run
  (the `OptionalCell<DeferredCallHandle>`),
- `clientSet` models whether a `TextScreenClient` is registered.

Bytes are modelled as `Nat` (the Rust code casts `u8` to `char`, and all
comparisons are on code points), buffers as `List Nat`.  The Rust copy
loop `buf[position] = buffer[position]` panics when it indexes past the
internal buffer; the embedding makes that outcome explicit as
`PrintOut.outOfBoundsWrite` rather than silently truncating.
-/

namespace LedMatrixText

/-- Error codes used by the driver (subset of `kernel::ErrorCode`). -/
inductive ErrorCode where
  | SIZE
  | BUSY
  | INVAL
  | NOSUPPORT
deriving DecidableEq

/-- The driver's operation state machine (`enum Status`). -/
inductive Status where
  | Idle
  | ExecutesCommand
  | ExecutesPrint
deriving DecidableEq

/-- The ten digit bitmaps (`const DIGITS: [u32; 10]`), 25 bits each,
row-major, most significant bit first. -/
def DIGITS : List Nat :=
  [ 0b1111110011101011100111111
  , 0b0010001100001000010001110
  , 0b1111000001011101000011111
  , 0b1111000001111100000111110
  , 0b1000010000101001111100100
  , 0b1111110000111100000111110
  , 0b1111110000111111000111111
  , 0b1111100001000100010000100
  , 0b1111110001111111000111111
  , 0b1111110001111110000111111 ]

/-- The twenty-six letter bitmaps (`const LETTERS: [u32; 26]`). -/
def LETTERS : List Nat :=
  [ 0b0111010001111111000110001
  , 0b1111110001111101000111111
  , 0b1111110000100001000011111
  , 0b1111010001100011000111110
  , 0b1111110000111101000011111
  , 0b1111110000111101000010000
  , 0b1111110000101111000111111
  , 0b1000110001111111000110001
  , 0b1111100100001000010011111
  , 0b0001100001000011000111111
  , 0b1000110010111001001010001
  , 0b1000010000100001000011111
  , 0b1000111011101011000110001
  , 0b1000111001101011001110001
  , 0b0111010001100011000101110
  , 0b1111010001111101000010000
  , 0b0111010001100010111000011
  , 0b1111010001111101000110001
  , 0b1111110000111110000111111
  , 0b1111100100001000010000100
  , 0b1000110001100011000111111
  , 0b1000110001010100101000100
  , 0b1000110001101011010101010
  , 0b1000101010001000101010001
  , 0b1000110001010100010000100
  , 0b1111100010001000100011111 ]

/-- The driver's mutable state, plus the observable effect counters
described in the module docstring. -/
structure DriverState where
  buffer : List Nat
  clientBuffer : Option (List Nat)
  clientLen : Nat
  position : Nat
  len : Nat
  speed : Nat
  status : Status
  isEnabled : Bool
  leds : List Bool
  handleSet : Bool
  pendingCalls : Nat
  alarmSets : Nat
  alarmInterval : Nat
  clientSet : Bool
deriving DecidableEq

/-- The frame written by the private `fn print(glyph: u32)`: LED `i` is on
exactly when `(glyph >> (24 - i)) & 0x01` is nonzero. -/
def glyphFrame (glyph : Nat) : List Bool :=
  List.ofFn fun i : Fin 25 => ((glyph >>> (24 - i.val)) &&& 1) != 0

/-- The frame written by the private `fn clear()`: all 25 LEDs off. -/
def blankFrame : List Bool :=
  List.ofFn fun _ : Fin 25 => false

/-- The `LedMatrixText::new` constructor: all cells start at their
initial values; the LED frame `leds0` is whatever the hardware shows. -/
def initState (buffer : List Nat) (speed : Nat) (leds0 : List Bool) : DriverState :=
  { buffer := buffer
  , clientBuffer := none
  , clientLen := 0
  , position := 0
  , len := 0
  , speed := speed
  , status := .Idle
  , isEnabled := false
  , leds := leds0
  , handleSet := false
  , pendingCalls := 0
  , alarmSets := 0
  , alarmInterval := 0
  , clientSet := false }

/-- The private `fn schedule_deferred_callback`: asks the deferred caller
to schedule the handle, provided `initialize_callback_handle` has stored
one. -/
def scheduleDeferredCallback (s : DriverState) : DriverState :=
  if s.handleSet then { s with pendingCalls := s.pendingCalls + 1 } else s

/-- Rust's `char::to_ascii_uppercase` on a code point: ASCII lowercase
letters are folded to uppercase, everything else is unchanged. -/
def toAsciiUppercase (c : Nat) : Nat :=
  if 97 ≤ c ∧ c ≤ 122 then c - 32 else c

/-- The private `fn display(character)`: when enabled, case-fold and look
the character up in `DIGITS`/`LETTERS`, rendering its glyph on success
and a blank frame with `Err(INVAL)` otherwise; when disabled, render a
blank frame and report success. -/
def display (s : DriverState) (character : Nat) : DriverState × Except ErrorCode Unit :=
  if s.isEnabled then
    let d := toAsciiUppercase character
    if 48 ≤ d ∧ d ≤ 57 then
      ({ s with leds := glyphFrame (DIGITS.getD (d - 48) 0) }, .ok ())
    else if 65 ≤ d ∧ d ≤ 90 then
      ({ s with leds := glyphFrame (LETTERS.getD (d - 65) 0) }, .ok ())
    else
      ({ s with leds := blankFrame }, .error .INVAL)
  else
    ({ s with leds := blankFrame }, .ok ())

/-- The private `fn display_next`: wrap `position` when it has reached
`len`; if `position < len`, display the byte at `position` and advance
(falling back to a blank frame when `position` is outside the internal
buffer); finally re-arm the alarm at `speed` when `len > 0`. -/
def displayNext (s : DriverState) : DriverState :=
  let s1 := if s.position ≥ s.len then { s with position := 0 } else s
  let s2 :=
    if s1.position < s1.len then
      if s1.position < s1.buffer.length then
        let s3 := (display s1 (s1.buffer.getD s1.position 0)).1
        { s3 with position := s3.position + 1 }
      else
        { s1 with leds := blankFrame }
    else s1
  if s2.len > 0 then
    { s2 with alarmSets := s2.alarmSets + 1, alarmInterval := s2.speed }
  else s2

/-- Synchronous outcome of `TextScreen::print`.  `outOfBoundsWrite` marks
the execution in which the copy loop `buf[position] = buffer[position]`
indexes past the end of the internal buffer, which panics in Rust. -/
inductive PrintOut where
  | accepted
  | rejected (e : ErrorCode) (buffer : List Nat)
  | outOfBoundsWrite
deriving DecidableEq

/-- `TextScreen::print(buffer, len)`: gated on `Idle`; checks
`len <= buffer.len()` against the client buffer; copies the first `len`
client bytes over the internal buffer, sets `len := max(len, old len)`,
retains the client buffer and its length, moves to `ExecutesPrint`,
schedules the deferred callback, and, when the previous effective length
was 0, runs `display_next` synchronously. -/
def printOp (s : DriverState) (buffer : List Nat) (len : Nat) : DriverState × PrintOut :=
  if s.status = .Idle then
    if len ≤ buffer.length then
      let previousLen := s.len
      if len ≤ s.buffer.length then
        let s1 := { s with buffer := buffer.take len ++ s.buffer.drop len
                         , len := max len s.len }
        let s2 := { s1 with clientBuffer := some buffer
                          , clientLen := len
                          , status := .ExecutesPrint }
        let s3 := scheduleDeferredCallback s2
        (if previousLen = 0 then displayNext s3 else s3, .accepted)
      else
        (s, .outOfBoundsWrite)
    else
      (s, .rejected .SIZE buffer)
  else
    (s, .rejected .BUSY buffer)

/-- `TextScreen::display_on`: gated on `Idle`; sets the enabled flag,
moves to `ExecutesCommand` and schedules the deferred callback. -/
def displayOn (s : DriverState) : DriverState × Except ErrorCode Unit :=
  if s.status = .Idle then
    (scheduleDeferredCallback { s with isEnabled := true, status := .ExecutesCommand }, .ok ())
  else
    (s, .error .BUSY)

/-- `TextScreen::display_off`: gated on `Idle`; clears the enabled flag,
moves to `ExecutesCommand` and schedules the deferred callback. -/
def displayOff (s : DriverState) : DriverState × Except ErrorCode Unit :=
  if s.status = .Idle then
    (scheduleDeferredCallback { s with isEnabled := false, status := .ExecutesCommand }, .ok ())
  else
    (s, .error .BUSY)

/-- `TextScreen::clear`: gated on `Idle`; resets `position` and `len`,
blanks the LEDs (the private `clear`), moves to `ExecutesCommand` and
schedules the deferred callback. -/
def clearOp (s : DriverState) : DriverState × Except ErrorCode Unit :=
  if s.status = .Idle then
    (scheduleDeferredCallback
       { s with position := 0, len := 0, leds := blankFrame, status := .ExecutesCommand }, .ok ())
  else
    (s, .error .BUSY)

instance : DecidableEq (Except ErrorCode Unit) := fun a b =>
  match a, b with
  | .ok (), .ok () => isTrue rfl
  | .ok (), .error _ => isFalse fun h => Except.noConfusion h
  | .error _, .ok () => isFalse fun h => Except.noConfusion h
  | .error e, .error f =>
      if h : e = f then isTrue (congrArg Except.error h)
      else isFalse fun hh => h (Except.error.inj hh)

/-- Events delivered to the registered `TextScreenClient` by the deferred
callback. -/
inductive CallbackEvent where
  | commandComplete (r : Except ErrorCode Unit)
  | writeComplete (buffer : List Nat) (len : Nat) (r : Except ErrorCode Unit)
deriving DecidableEq

/-- The result value carried by a callback event. -/
def eventResult : CallbackEvent → Except ErrorCode Unit
  | .commandComplete r => r
  | .writeComplete _ _ r => r

/-- `DynamicDeferredCallClient::call`: dispatch on the current status,
emit the completion to the registered client (handing the retained
client buffer back for a print), and set the status back to `Idle`. -/
def callOp (s : DriverState) : DriverState × Option CallbackEvent :=
  match s.status with
  | .Idle => ({ s with status := .Idle }, none)
  | .ExecutesCommand =>
      if s.clientSet then
        ({ s with status := .Idle }, some (.commandComplete (.ok ())))
      else
        ({ s with status := .Idle }, none)
  | .ExecutesPrint =>
      if s.clientSet then
        match s.clientBuffer with
        | some b =>
            ({ s with status := .Idle, clientBuffer := none },
             some (.writeComplete b s.clientLen (.ok ())))
        | none => ({ s with status := .Idle }, none)
      else
        ({ s with status := .Idle }, none)

/-- Derived view of `display`: the frame it writes, as a function of the
enabled flag and the character only. -/
def displayFrame (enabled : Bool) (c : Nat) : List Bool :=
  if enabled then
    let d := toAsciiUppercase c
    if 48 ≤ d ∧ d ≤ 57 then glyphFrame (DIGITS.getD (d - 48) 0)
    else if 65 ≤ d ∧ d ≤ 90 then glyphFrame (LETTERS.getD (d - 65) 0)
    else blankFrame
  else blankFrame

/-- Derived view of `display`: the result it returns, as a function of
the enabled flag and the character only. -/
def displayResult (enabled : Bool) (c : Nat) : Except ErrorCode Unit :=
  if enabled then
    let d := toAsciiUppercase c
    if 48 ≤ d ∧ d ≤ 57 then .ok ()
    else if 65 ≤ d ∧ d ≤ 90 then .ok ()
    else .error .INVAL
  else .ok ()

/-- The state reached by the accepting branch of `TextScreen::print`
just before the `previous_len == 0` special case runs. -/
def afterAccept (s : DriverState) (buffer : List Nat) (len : Nat) : DriverState :=
  scheduleDeferredCallback
    { s with buffer := buffer.take len ++ s.buffer.drop len
           , len := max len s.len
           , clientBuffer := some buffer
           , clientLen := len
           , status := .ExecutesPrint }

/-- A freshly constructed driver: internal capacity 8, speed 100,
all LEDs off. -/
def demoState : DriverState := initState (List.replicate 8 0) 100 (List.replicate 25 false)

/-- A driver mid-command, used to exercise the `Busy` rejections. -/
def busyState : DriverState := { demoState with status := .ExecutesCommand }

/-- A fresh driver whose deferred-call handle and client are set up. -/
def readyState : DriverState := { demoState with handleSet := true, clientSet := true }

/-- A set-up driver whose display has been enabled. -/
def enabledState : DriverState := { readyState with isEnabled := true }

/-- A set-up, enabled driver already holding three bytes of text. -/
def runningState : DriverState := { enabledState with len := 3 }

/-! Helper lemmas about the embedded operations. -/

theorem display_eq (s : DriverState) (c : Nat) :
    display s c = ({ s with leds := displayFrame s.isEnabled c }, displayResult s.isEnabled c) := by
  cases hb : s.isEnabled
  · simp [display, displayFrame, displayResult, hb]
  · simp only [display, displayFrame, displayResult, hb, if_true]
    split
    · simp
    · split <;> simp

theorem displayFrame_false (c : Nat) : displayFrame false c = blankFrame := rfl

theorem displayResult_false (c : Nat) : displayResult false c = .ok () := rfl

theorem display_disabled (s : DriverState) (c : Nat) (h : s.isEnabled = false) :
    display s c = ({ s with leds := blankFrame }, .ok ()) := by
  rw [display_eq, h, displayFrame_false, displayResult_false]

theorem glyphFrame_length (g : Nat) : (glyphFrame g).length = 25 := by
  simp [glyphFrame]

theorem blankFrame_length : blankFrame.length = 25 := by
  simp [blankFrame]

theorem shift_and_one_eq_testBit (m k : Nat) :
    ((m >>> k) &&& 1 != 0) = m.testBit k := by
  rw [Nat.testBit_to_div_mod, Nat.and_one_is_mod, Nat.shiftRight_eq_div_pow]
  rcases Nat.mod_two_eq_zero_or_one (m / 2 ^ k) with h | h <;> rw [h] <;> rfl

theorem scheduleDeferredCallback_eq (s : DriverState) (hh : s.handleSet = true) :
    scheduleDeferredCallback s = { s with pendingCalls := s.pendingCalls + 1 } := by
  simp [scheduleDeferredCallback, hh]

theorem displayNext_eq_full (s : DriverState) :
    displayNext s =
      if s.len = 0 then { s with position := 0 }
      else if (if s.len ≤ s.position then 0 else s.position) < s.buffer.length then
        { s with position := (if s.len ≤ s.position then 0 else s.position) + 1
               , leds := displayFrame s.isEnabled
                   (s.buffer.getD (if s.len ≤ s.position then 0 else s.position) 0)
               , alarmSets := s.alarmSets + 1
               , alarmInterval := s.speed }
      else
        { s with position := (if s.len ≤ s.position then 0 else s.position)
               , leds := blankFrame
               , alarmSets := s.alarmSets + 1
               , alarmInterval := s.speed } := by
  unfold displayNext
  by_cases h0 : s.len = 0
  · have hw : s.position ≥ s.len := h0 ▸ Nat.zero_le _
    simp [h0, hw]
  · have hlen : 0 < s.len := Nat.pos_of_ne_zero h0
    by_cases hw : s.len ≤ s.position
    · by_cases hb : 0 < s.buffer.length
      · simp [h0, hw, hb, hlen, display_eq, ge_iff_le, Nat.not_lt_of_lt]
      · simp [h0, hw, hb, hlen, ge_iff_le, Nat.not_lt.mp]
    · have hpos : s.position < s.len := Nat.lt_of_not_le hw
      by_cases hb : s.position < s.buffer.length
      · simp [h0, hw, hb, hpos, hlen, display_eq, ge_iff_le]
      · simp [h0, hw, hb, hpos, hlen, ge_iff_le]

theorem displayNext_status (s : DriverState) : (displayNext s).status = s.status := by
  rw [displayNext_eq_full]
  repeat' split
  all_goals rfl

theorem displayNext_clientBuffer (s : DriverState) :
    (displayNext s).clientBuffer = s.clientBuffer := by
  rw [displayNext_eq_full]
  repeat' split
  all_goals rfl

theorem displayNext_clientLen (s : DriverState) : (displayNext s).clientLen = s.clientLen := by
  rw [displayNext_eq_full]
  repeat' split
  all_goals rfl

theorem displayNext_pendingCalls (s : DriverState) :
    (displayNext s).pendingCalls = s.pendingCalls := by
  rw [displayNext_eq_full]
  repeat' split
  all_goals rfl

theorem displayNext_clientSet (s : DriverState) : (displayNext s).clientSet = s.clientSet := by
  rw [displayNext_eq_full]
  repeat' split
  all_goals rfl

theorem displayNext_buffer (s : DriverState) : (displayNext s).buffer = s.buffer := by
  rw [displayNext_eq_full]
  repeat' split
  all_goals rfl

theorem displayNext_len (s : DriverState) : (displayNext s).len = s.len := by
  rw [displayNext_eq_full]
  repeat' split
  all_goals rfl

theorem displayNext_position_formula (s : DriverState) :
    (displayNext s).position =
      if s.len = 0 then 0
      else if (if s.len ≤ s.position then 0 else s.position) < s.buffer.length
        then (if s.len ≤ s.position then 0 else s.position) + 1
        else (if s.len ≤ s.position then 0 else s.position) := by
  rw [displayNext_eq_full]
  repeat' split
  all_goals rfl

theorem afterAccept_buffer (s : DriverState) (buf : List Nat) (n : Nat) :
    (afterAccept s buf n).buffer = buf.take n ++ s.buffer.drop n := by
  unfold afterAccept scheduleDeferredCallback
  split <;> rfl

theorem afterAccept_len (s : DriverState) (buf : List Nat) (n : Nat) :
    (afterAccept s buf n).len = max n s.len := by
  unfold afterAccept scheduleDeferredCallback
  split <;> rfl

theorem afterAccept_position (s : DriverState) (buf : List Nat) (n : Nat) :
    (afterAccept s buf n).position = s.position := by
  unfold afterAccept scheduleDeferredCallback
  split <;> rfl

theorem afterAccept_status (s : DriverState) (buf : List Nat) (n : Nat) :
    (afterAccept s buf n).status = .ExecutesPrint := by
  unfold afterAccept scheduleDeferredCallback
  split <;> rfl

theorem afterAccept_clientBuffer (s : DriverState) (buf : List Nat) (n : Nat) :
    (afterAccept s buf n).clientBuffer = some buf := by
  unfold afterAccept scheduleDeferredCallback
  split <;> rfl

theorem afterAccept_clientLen (s : DriverState) (buf : List Nat) (n : Nat) :
    (afterAccept s buf n).clientLen = n := by
  unfold afterAccept scheduleDeferredCallback
  split <;> rfl

theorem afterAccept_clientSet (s : DriverState) (buf : List Nat) (n : Nat) :
    (afterAccept s buf n).clientSet = s.clientSet := by
  unfold afterAccept scheduleDeferredCallback
  split <;> rfl

theorem afterAccept_isEnabled (s : DriverState) (buf : List Nat) (n : Nat) :
    (afterAccept s buf n).isEnabled = s.isEnabled := by
  unfold afterAccept scheduleDeferredCallback
  split <;> rfl

theorem afterAccept_pendingCalls (s : DriverState) (buf : List Nat) (n : Nat)
    (hh : s.handleSet = true) :
    (afterAccept s buf n).pendingCalls = s.pendingCalls + 1 := by
  unfold afterAccept scheduleDeferredCallback
  simp [hh]

theorem printOp_eq (s : DriverState) (buf : List Nat) (n : Nat)
    (h1 : s.status = .Idle) (h2 : n ≤ buf.length) (h3 : n ≤ s.buffer.length) :
    printOp s buf n =
      (if s.len = 0 then displayNext (afterAccept s buf n) else afterAccept s buf n,
       .accepted) := by
  simp [printOp, afterAccept, h1, h2, h3]

theorem printAccept_shape (s : DriverState) (buf : List Nat) (n : Nat)
    (hh : s.handleSet = true) (h1 : s.status = .Idle)
    (h2 : n ≤ buf.length) (h3 : n ≤ s.buffer.length) :
    (printOp s buf n).1.status = .ExecutesPrint ∧
    (printOp s buf n).1.clientBuffer = some buf ∧
    (printOp s buf n).1.clientLen = n ∧
    (printOp s buf n).1.pendingCalls = s.pendingCalls + 1 ∧
    (printOp s buf n).1.clientSet = s.clientSet := by
  rw [printOp_eq s buf n h1 h2 h3]
  by_cases h0 : s.len = 0 <;>
    simp [h0, displayNext_status, displayNext_clientBuffer, displayNext_clientLen,
          displayNext_pendingCalls, displayNext_clientSet,
          afterAccept_status, afterAccept_clientBuffer, afterAccept_clientLen,
          afterAccept_clientSet, afterAccept_pendingCalls s buf n hh]

theorem clearOp_eq (s : DriverState) (h1 : s.status = .Idle) :
    clearOp s =
      (scheduleDeferredCallback
         { s with position := 0, len := 0, leds := blankFrame, status := .ExecutesCommand },
       .ok ()) := by
  simp [clearOp, h1]

theorem displayOn_eq (s : DriverState) (h1 : s.status = .Idle) :
    displayOn s =
      (scheduleDeferredCallback { s with isEnabled := true, status := .ExecutesCommand },
       .ok ()) := by
  simp [displayOn, h1]

theorem displayOff_eq (s : DriverState) (h1 : s.status = .Idle) :
    displayOff s =
      (scheduleDeferredCallback { s with isEnabled := false, status := .ExecutesCommand },
       .ok ()) := by
  simp [displayOff, h1]

theorem callOp_idle_eq (t : DriverState) (h1 : t.status = .Idle) :
    callOp t = ({ t with status := .Idle }, none) := by
  unfold callOp
  rw [h1]

theorem callOp_command_eq (t : DriverState) (h1 : t.status = .ExecutesCommand)
    (h2 : t.clientSet = true) :
    callOp t = ({ t with status := .Idle }, some (.commandComplete (.ok ()))) := by
  unfold callOp
  rw [h1]
  simp [h2]

theorem callOp_print_eq (t : DriverState) (b : List Nat)
    (h1 : t.status = .ExecutesPrint) (h2 : t.clientSet = true)
    (h3 : t.clientBuffer = some b) :
    callOp t = ({ t with status := .Idle, clientBuffer := none },
                some (.writeComplete b t.clientLen (.ok ()))) := by
  unfold callOp
  rw [h1]
  simp [h2, h3]

theorem callOp_result_ok (t : DriverState) (e : CallbackEvent)
    (h : (callOp t).2 = some e) : eventResult e = .ok () := by
  unfold callOp at h
  rcases ht : t.status with _ | _ | _ <;> rw [ht] at h
  · simp at h
  · by_cases hc : t.clientSet <;> simp [hc] at h
    rw [← h]
    rfl
  · by_cases hc : t.clientSet
    · rcases hb : t.clientBuffer with _ | b <;> rw [hb] at h <;> simp [hc] at h
      rw [← h]
      rfl
    · simp [hc] at h

theorem getD_zero_take_append (buf r : List Nat) (n : Nat) (hn : 0 < n)
    (hb : 0 < buf.length) : (buf.take n ++ r).getD 0 0 = buf.getD 0 0 := by
  cases buf with
  | nil => simp at hb
  | cons a t =>
    cases n with
    | zero => simp at hn
    | succ m => rfl

/-! The claims. -/

/-- Claim C1: the spec says a `print` whose `count` exceeds the internal
scroll buffer's capacity fails synchronously with `OversizeWrite`
(`SIZE`).  The code's only size check is `len <= buffer.len()` against
the caller's buffer: on a fresh driver with capacity 8, `print` of the
11-byte text `TOOLONGTEXT` with count 11 passes that check and the copy
loop then writes past the end of the 8-byte internal buffer — a panic in
Rust, modelled as `outOfBoundsWrite` — instead of returning `SIZE`. -/
theorem C1_oversize_print_out_of_bounds :
    demoState.status = .Idle ∧
    demoState.buffer.length = 8 ∧
    printOp demoState [84, 79, 79, 76, 79, 78, 71, 84, 69, 88, 84] 11 =
      (demoState, .outOfBoundsWrite) := by
  decide

/-- Claim C2: while the status is not `Idle`, every gated operation
(`print`, `display_on`, `display_off`, `clear`) returns `Busy`, leaves
the whole driver state (including the scheduled-callback count)
untouched, and `print` hands the caller's buffer straight back. -/
theorem C2_busy_rejection (s : DriverState) (buf : List Nat) (n : Nat)
    (h : s.status ≠ .Idle) :
    printOp s buf n = (s, .rejected .BUSY buf) ∧
    displayOn s = (s, .error .BUSY) ∧
    displayOff s = (s, .error .BUSY) ∧
    clearOp s = (s, .error .BUSY) := by
  refine ⟨?_, ?_, ?_, ?_⟩ <;> simp [printOp, displayOn, displayOff, clearOp, h]

/-- Witness for C2 at a concrete mid-command state. -/
theorem C2_busy_rejection_witness :
    busyState.status ≠ .Idle ∧
    printOp busyState [1, 2] 2 = (busyState, .rejected .BUSY [1, 2]) ∧
    displayOn busyState = (busyState, .error .BUSY) ∧
    displayOff busyState = (busyState, .error .BUSY) ∧
    clearOp busyState = (busyState, .error .BUSY) :=
  ⟨by decide, C2_busy_rejection busyState [1, 2] 2 (by decide)⟩

/-- Claim C4, counterexample: the claim says every accepted `print`
leaves `position` unchanged, but an accepted `print` into an empty
buffer runs `display_next` synchronously, which advances `position`
from 0 to 1 before the call returns. -/
theorem C4_position_counterexample :
    readyState.status = .Idle ∧ readyState.len = 0 ∧ readyState.position = 0 ∧
    (printOp readyState [72, 73] 2).2 = .accepted ∧
    (printOp readyState [72, 73] 2).1.position = 1 := by
  decide

/-- Claim C4 as amended: an accepted `print(buffer, count)` copies the
first `count` client bytes over the internal buffer, sets
`len := max(len, count)`, and leaves `position` unchanged whenever the
previous effective length was nonzero; when it was zero the synchronous
first advance runs instead: for `count > 0` the position ends at
(wrapped position) + 1, and for `count = 0` it is reset to 0. -/
theorem C4_print_copy_semantics (s : DriverState) (buf : List Nat) (n : Nat)
    (h1 : s.status = .Idle) (h2 : n ≤ buf.length) (h3 : n ≤ s.buffer.length) :
    (printOp s buf n).2 = .accepted ∧
    (printOp s buf n).1.buffer = buf.take n ++ s.buffer.drop n ∧
    (printOp s buf n).1.len = max n s.len ∧
    (s.len ≠ 0 → (printOp s buf n).1.position = s.position) ∧
    (s.len = 0 → 0 < n →
      (printOp s buf n).1.position = (if n ≤ s.position then 0 else s.position) + 1) ∧
    (s.len = 0 → n = 0 → (printOp s buf n).1.position = 0) := by
  rw [printOp_eq s buf n h1 h2 h3]
  have hblen : (afterAccept s buf n).buffer.length = s.buffer.length := by
    rw [afterAccept_buffer]
    simp [List.length_append, List.length_take, List.length_drop, Nat.min_eq_left h2]
    omega
  refine ⟨rfl, ?_, ?_, ?_, ?_, ?_⟩
  · by_cases h0 : s.len = 0 <;> simp [h0, displayNext_buffer, afterAccept_buffer]
  · by_cases h0 : s.len = 0 <;> simp [h0, displayNext_len, afterAccept_len]
  · intro h0
    simp [h0, afterAccept_position]
  · intro h0 hn
    have hlen : (afterAccept s buf n).len = n := by
      rw [afterAccept_len, h0]
      simp
    simp only [h0, if_true]
    rw [displayNext_position_formula, hlen, afterAccept_position, hblen]
    split_ifs <;> omega
  · intro h0 hz
    have hlen : (afterAccept s buf n).len = 0 := by
      rw [afterAccept_len, h0, hz]
      simp
    simp only [h0, if_true]
    rw [displayNext_position_formula, hlen]
    simp

/-- Witness for the amended C4 at a concrete state with nonzero previous
length. -/
theorem C4_print_copy_semantics_witness :
    (printOp runningState [65, 66] 2).2 = .accepted ∧
    (printOp runningState [65, 66] 2).1.len = 3 ∧
    (printOp runningState [65, 66] 2).1.position = runningState.position := by
  have h := C4_print_copy_semantics runningState [65, 66] 2 rfl (by decide) (by decide)
  refine ⟨h.1, ?_, h.2.2.2.1 (by decide)⟩
  rw [h.2.2.1]
  decide

/-- Claim C3: every accepted state-changing operation schedules exactly
one deferred callback before returning (given an initialized handle),
and delivering that callback (given a registered client) performs the
externally visible completion — for `print` it hands the retained client
buffer back exactly once together with `client_len` equal to the
committed count, for commands it emits plain success — and sets the
status back to `Idle`. -/
theorem C3_completion_lifecycle (s : DriverState) (buf : List Nat) (n : Nat)
    (hh : s.handleSet = true) (hc : s.clientSet = true) :
    (s.status = .Idle → n ≤ buf.length → n ≤ s.buffer.length →
      (printOp s buf n).1.pendingCalls = s.pendingCalls + 1 ∧
      callOp (printOp s buf n).1 =
        ({ (printOp s buf n).1 with status := .Idle, clientBuffer := none },
         some (.writeComplete buf n (.ok ()))) ∧
      (callOp (callOp (printOp s buf n).1).1).2 = none) ∧
    (s.status = .Idle →
      (clearOp s).1.pendingCalls = s.pendingCalls + 1 ∧
      callOp (clearOp s).1 =
        ({ (clearOp s).1 with status := .Idle }, some (.commandComplete (.ok ())))) ∧
    (s.status = .Idle →
      (displayOn s).1.pendingCalls = s.pendingCalls + 1 ∧
      callOp (displayOn s).1 =
        ({ (displayOn s).1 with status := .Idle }, some (.commandComplete (.ok ())))) ∧
    (s.status = .Idle →
      (displayOff s).1.pendingCalls = s.pendingCalls + 1 ∧
      callOp (displayOff s).1 =
        ({ (displayOff s).1 with status := .Idle }, some (.commandComplete (.ok ())))) := by
  refine ⟨?_, ?_, ?_, ?_⟩
  · intro h1 h2 h3
    obtain ⟨hst, hcb, hcl, hpc, hcs⟩ := printAccept_shape s buf n hh h1 h2 h3
    have hca := callOp_print_eq (printOp s buf n).1 buf hst (hcs.trans hc) hcb
    refine ⟨hpc, ?_, ?_⟩
    · rw [hca]
      simp only [hcl]
    · rw [hca]
      rw [callOp_idle_eq _ rfl]
  · intro h1
    rw [clearOp_eq s h1,
        scheduleDeferredCallback_eq
          ({ s with position := 0, len := 0, leds := blankFrame,
                    status := .ExecutesCommand }) hh]
    exact ⟨rfl, callOp_command_eq _ rfl hc⟩
  · intro h1
    rw [displayOn_eq s h1,
        scheduleDeferredCallback_eq
          ({ s with isEnabled := true, status := .ExecutesCommand }) hh]
    exact ⟨rfl, callOp_command_eq _ rfl hc⟩
  · intro h1
    rw [displayOff_eq s h1,
        scheduleDeferredCallback_eq
          ({ s with isEnabled := false, status := .ExecutesCommand }) hh]
    exact ⟨rfl, callOp_command_eq _ rfl hc⟩

/-- Witness for C3 at a concrete fresh, set-up driver. -/
theorem C3_completion_lifecycle_witness :
    (printOp readyState [72, 73] 2).1.pendingCalls = readyState.pendingCalls + 1 ∧
    (callOp (printOp readyState [72, 73] 2).1).2 =
      some (.writeComplete [72, 73] 2 (.ok ())) ∧
    (callOp (printOp readyState [72, 73] 2).1).1.status = .Idle ∧
    (callOp (callOp (printOp readyState [72, 73] 2).1).1).2 = none ∧
    (callOp (clearOp readyState).1).2 = some (.commandComplete (.ok ())) := by
  have h := C3_completion_lifecycle readyState [72, 73] 2 rfl rfl
  have hp := h.1 rfl (by decide) (by decide)
  have hcl := (h.2.1 rfl).2
  exact ⟨hp.1, by rw [hp.2.1], by rw [hp.2.1], hp.2.2, by rw [hcl]⟩

/-- Claim C5: `display_next` first wraps `position` to 0 when it has
reached `len`; when `len > 0` it then renders the `display` frame of the
byte at the (possibly wrapped) position and increments the position; and
the alarm is re-armed at the current speed exactly when `len > 0`. -/
theorem C5_advance_spec (s : DriverState) (h : s.len ≤ s.buffer.length) :
    (s.len = 0 → displayNext s = { s with position := 0 }) ∧
    (0 < s.len →
      displayNext s =
        { s with position := (if s.len ≤ s.position then 0 else s.position) + 1
               , leds := (display s
                   (s.buffer.getD (if s.len ≤ s.position then 0 else s.position) 0)).1.leds
               , alarmSets := s.alarmSets + 1
               , alarmInterval := s.speed }) ∧
    ((displayNext s).alarmSets = s.alarmSets + 1 ↔ 0 < s.len) ∧
    (0 < s.len → (displayNext s).alarmInterval = s.speed) := by
  have hled : ∀ c : Nat, (display s c).1.leds = displayFrame s.isEnabled c := fun c => by
    rw [display_eq]
  refine ⟨?_, ?_, ⟨?_, ?_⟩, ?_⟩
  · intro h0
    rw [displayNext_eq_full]
    simp [h0]
  · intro hl
    have hne : ¬ s.len = 0 := Nat.pos_iff_ne_zero.mp hl
    have hplt : (if s.len ≤ s.position then 0 else s.position) < s.buffer.length := by
      split_ifs <;> omega
    rw [displayNext_eq_full, if_neg hne, if_pos hplt, hled]
  · intro ha
    by_contra hl
    have h0 : s.len = 0 := by omega
    rw [displayNext_eq_full, if_pos h0] at ha
    simp at ha
  · intro hl
    have hne : ¬ s.len = 0 := Nat.pos_iff_ne_zero.mp hl
    rw [displayNext_eq_full, if_neg hne]
    repeat' split
    all_goals rfl
  · intro hl
    have hne : ¬ s.len = 0 := Nat.pos_iff_ne_zero.mp hl
    rw [displayNext_eq_full, if_neg hne]
    repeat' split
    all_goals rfl

/-- Witness for C5 at a concrete running driver (len 3, position 0). -/
theorem C5_advance_spec_witness :
    runningState.len ≤ runningState.buffer.length ∧
    displayNext runningState =
      { runningState with
          position := 1,
          leds := (display runningState (runningState.buffer.getD 0 0)).1.leds,
          alarmSets := runningState.alarmSets + 1,
          alarmInterval := runningState.speed } ∧
    ((displayNext runningState).alarmSets = runningState.alarmSets + 1 ↔
      0 < runningState.len) := by
  have h := C5_advance_spec runningState (by decide)
  exact ⟨by decide, h.2.1 (by decide), h.2.2.1⟩

/-- Claim C6: a `print` accepted while the previous effective length was
0 renders the frame of the first byte of the new text synchronously,
within the call itself (with rendering enabled, that frame is the
byte's glyph), and leaves the driver mid-print. -/
theorem C6_first_print_renders (s : DriverState) (buf : List Nat) (n : Nat)
    (h1 : s.status = .Idle) (h2 : n ≤ buf.length) (h3 : n ≤ s.buffer.length)
    (h0 : s.len = 0) (hp : s.position = 0) (hn : 0 < n) (he : s.isEnabled = true) :
    (printOp s buf n).2 = .accepted ∧
    (printOp s buf n).1.leds = displayFrame true (buf.getD 0 0) ∧
    (printOp s buf n).1.status = .ExecutesPrint := by
  rw [printOp_eq s buf n h1 h2 h3]
  refine ⟨rfl, ?_, ?_⟩
  · have hlen : (afterAccept s buf n).len = n := by
      rw [afterAccept_len, h0]
      simp
    have hpos : (afterAccept s buf n).position = 0 := by
      rw [afterAccept_position, hp]
    have hen : (afterAccept s buf n).isEnabled = true := by
      rw [afterAccept_isEnabled, he]
    have hblen : 0 < (afterAccept s buf n).buffer.length := by
      rw [afterAccept_buffer]
      simp [List.length_append, List.length_take, List.length_drop, Nat.min_eq_left h2]
      omega
    have hne : ¬ (afterAccept s buf n).len = 0 := by
      rw [hlen]
      omega
    simp only [h0, if_true]
    rw [displayNext_eq_full, if_neg hne, hpos]
    rw [if_pos (by simpa using hblen)]
    have hgd : (afterAccept s buf n).buffer.getD 0 0 = buf.getD 0 0 := by
      rw [afterAccept_buffer]
      exact getD_zero_take_append buf _ n hn (Nat.lt_of_lt_of_le hn h2)
    have hite : (if (afterAccept s buf n).len ≤ 0 then 0 else 0) = 0 := by
      split_ifs <;> rfl
    rw [hen, hite, hgd]
  · simp [h0, displayNext_status, afterAccept_status]

/-- Witness for C6: printing the two bytes of `HI` into a fresh,
enabled driver renders the glyph of `H` before the call returns. -/
theorem C6_first_print_renders_witness :
    (printOp enabledState [72, 73] 2).2 = .accepted ∧
    (printOp enabledState [72, 73] 2).1.leds = displayFrame true 72 ∧
    (printOp enabledState [72, 73] 2).1.status = .ExecutesPrint ∧
    displayFrame true 72 = glyphFrame (LETTERS.getD 7 0) := by
  have h := C6_first_print_renders enabledState [72, 73] 2 rfl (by decide) (by decide)
    rfl rfl (by decide) rfl
  exact ⟨h.1, h.2.1, h.2.2, by decide⟩

/-- Claim C7: when the enabled flag is false, the timer-driven advance
moves `position` exactly as it does when enabled (the position outcome
of `display_next` is independent of the flag), every render produced
while disabled is the blank frame with all 25 elements off, and the
render reports success. -/
theorem C7_disabled_advance (s : DriverState) (c : Nat) (e : Bool) :
    (displayNext { s with isEnabled := e }).position = (displayNext s).position ∧
    (s.isEnabled = false → display s c = ({ s with leds := blankFrame }, .ok ())) ∧
    blankFrame = List.replicate 25 false := by
  refine ⟨?_, display_disabled s c, by decide⟩
  rw [displayNext_position_formula, displayNext_position_formula]

/-- Witness for C7 on a fresh (disabled) driver against its enabled
twin. -/
theorem C7_disabled_advance_witness :
    (displayNext { demoState with isEnabled := true }).position =
      (displayNext demoState).position ∧
    display demoState 72 = ({ demoState with leds := blankFrame }, .ok ()) ∧
    blankFrame = List.replicate 25 false :=
  have h := C7_disabled_advance demoState 72 true
  ⟨h.1, h.2.1 rfl, h.2.2⟩

/-- Claim C8, counterexample: the claim says the `UnsupportedGlyph`
error is surfaced to the operation's completion.  Printing the single
unsupported byte 36 into a fresh enabled driver renders blank and the
renderer reports `INVAL`, yet the completion delivered for that very
operation carries plain success — the error never reaches the
completion. -/
theorem C8_error_not_surfaced :
    (display enabledState 36).2 = .error .INVAL ∧
    (printOp enabledState [36] 1).2 = .accepted ∧
    (printOp enabledState [36] 1).1.leds = blankFrame ∧
    (callOp (printOp enabledState [36] 1).1).2 =
      some (.writeComplete [36] 1 (.ok ())) := by
  decide

/-- Claim C8 as amended: with rendering enabled, lowercase ASCII letters
are folded to uppercase first; after folding, digits and uppercase
letters render their glyph and succeed, and every other character fails
with `UnsupportedGlyph` (`INVAL`) while rendering a blank frame; the
error is returned by value from the renderer rather than thrown, but
operation completions always report success. -/
theorem C8_glyph_classification (s : DriverState) (c : Nat) (he : s.isEnabled = true) :
    (97 ≤ c → c ≤ 122 → toAsciiUppercase c = c - 32) ∧
    (48 ≤ toAsciiUppercase c → toAsciiUppercase c ≤ 57 →
      display s c =
        ({ s with leds := glyphFrame (DIGITS.getD (toAsciiUppercase c - 48) 0) }, .ok ())) ∧
    (65 ≤ toAsciiUppercase c → toAsciiUppercase c ≤ 90 →
      display s c =
        ({ s with leds := glyphFrame (LETTERS.getD (toAsciiUppercase c - 65) 0) }, .ok ())) ∧
    (¬ (48 ≤ toAsciiUppercase c ∧ toAsciiUppercase c ≤ 57) →
     ¬ (65 ≤ toAsciiUppercase c ∧ toAsciiUppercase c ≤ 90) →
      display s c = ({ s with leds := blankFrame }, .error .INVAL)) ∧
    (∀ t : DriverState, ∀ ev : CallbackEvent,
      (callOp t).2 = some ev → eventResult ev = .ok ()) := by
  refine ⟨?_, ?_, ?_, ?_, callOp_result_ok⟩
  · intro ha hb
    simp [toAsciiUppercase, ha, hb]
  · intro ha hb
    rw [display_eq, he]
    simp [displayFrame, displayResult, ha, hb]
  · intro ha hb
    have hd : ¬ (48 ≤ toAsciiUppercase c ∧ toAsciiUppercase c ≤ 57) := by
      rintro ⟨-, h57⟩
      omega
    rw [display_eq, he]
    simp [displayFrame, displayResult, ha, hb, hd]
  · intro ha hb
    rw [display_eq, he]
    simp [displayFrame, displayResult, ha, hb]

/-- Witness for the amended C8: the digit `5` (53) renders its glyph,
the lowercase `h` (104) folds to `H` (72), and `*` (42) renders blank
with `INVAL`. -/
theorem C8_glyph_classification_witness :
    toAsciiUppercase 104 = 72 ∧
    display enabledState 53 =
      ({ enabledState with leds := glyphFrame (DIGITS.getD 5 0) }, .ok ()) ∧
    display enabledState 42 =
      ({ enabledState with leds := blankFrame }, .error .INVAL) := by
  have ha := C8_glyph_classification enabledState 53 rfl
  have hb := C8_glyph_classification enabledState 42 rfl
  have hc := C8_glyph_classification enabledState 104 rfl
  exact ⟨hc.1 (by decide) (by decide), ha.2.1 (by decide) (by decide),
        hb.2.2.2.1 (by decide) (by decide)⟩

/-- Claim C9: rendering a glyph mask turns element `i` on exactly when
bit `24 - i` of the mask is 1, and the blank frame has all 25 elements
off. -/
theorem C9_glyph_bit_mapping (g : Nat) (i : Fin 25) :
    (glyphFrame g).get (Fin.cast (glyphFrame_length g).symm i) = g.testBit (24 - i.val) ∧
    blankFrame.get (Fin.cast blankFrame_length.symm i) = false := by
  constructor
  · simp only [glyphFrame]
    rw [List.get_ofFn]
    simp only [Fin.coe_cast]
    exact shift_and_one_eq_testBit g (24 - i.val)
  · simp only [blankFrame]
    rw [List.get_ofFn]

/-- Claim C10: a freshly constructed driver has the enabled flag false,
and while the flag stays false every render — including the synchronous
render of the first accepted `print` into the empty buffer — produces
the blank frame rather than a glyph. -/
theorem C10_initial_disabled (buf0 : List Nat) (speed : Nat) (leds0 : List Bool)
    (buf : List Nat) (n : Nat) :
    (initState buf0 speed leds0).isEnabled = false ∧
    (∀ s : DriverState, ∀ c : Nat, s.isEnabled = false →
      display s c = ({ s with leds := blankFrame }, .ok ())) ∧
    (0 < n → n ≤ buf.length → n ≤ buf0.length →
      (printOp (initState buf0 speed leds0) buf n).2 = .accepted ∧
      (printOp (initState buf0 speed leds0) buf n).1.leds = blankFrame) := by
  refine ⟨rfl, fun s c h => display_disabled s c h, ?_⟩
  intro hn h2 h3
  rw [printOp_eq _ buf n rfl h2 h3]
  refine ⟨rfl, ?_⟩
  have hlen : (afterAccept (initState buf0 speed leds0) buf n).len = n := by
    rw [afterAccept_len]
    simp [initState]
  have hne : ¬ (afterAccept (initState buf0 speed leds0) buf n).len = 0 := by
    rw [hlen]
    omega
  have hen : (afterAccept (initState buf0 speed leds0) buf n).isEnabled = false := by
    rw [afterAccept_isEnabled]
    rfl
  have h0 : (initState buf0 speed leds0).len = 0 := rfl
  simp only [h0, if_true]
  rw [displayNext_eq_full, if_neg hne, hen, displayFrame_false]
  repeat' split
  all_goals rfl

/-- Witness for C10: on the fresh capacity-8 driver the first print of
`HI` renders blank, because the display is still disabled. -/
theorem C10_initial_disabled_witness :
    demoState.isEnabled = false ∧
    display demoState 72 = ({ demoState with leds := blankFrame }, .ok ()) ∧
    (printOp demoState [72, 73] 2).2 = .accepted ∧
    (printOp demoState [72, 73] 2).1.leds = blankFrame := by
  have h := C10_initial_disabled (List.replicate 8 0) 100 (List.replicate 25 false) [72, 73] 2
  have hp := h.2.2 (by decide) (by decide) (by decide)
  exact ⟨h.1, h.2.1 demoState 72 rfl, hp.1, hp.2⟩

end LedMatrixText
